import Mathlib

/-!
Verification of the MQTT telemetry bridge (`mqtt_app.py`).

The script connects to an MQTT broker, subscribes to three fixed topics on
every (re)connect, and runs a publisher loop that each cycle reads GPS,
modem-temperature and WAN-connection-state values from the router data
source and publishes them (GPS as a single-shot publish, the other two as a
batch publish), then sleeps 10 seconds, with a try/except wrapped around
the whole cycle body.

We embed the Python values and the two relevant functions (`on_connect`
and the body of `publish_thread`) shallowly: Python values become the
inductive `PyValue`, the external device data source becomes a function
`String → PyValue` giving the result of `cs.CSClient().get(key)`, possible
exceptions from the network publish calls become `Option String` fields of
the cycle environment, and observable effects (publishes, sleeps, log
lines) become an explicit event trace.
-/

/-- A Python value as visible to this script: `None`, booleans, numbers
(kept as their JSON literal rendering, since the script never computes with
them), strings, and dictionaries as association lists in insertion order. -/
inductive PyValue where
  | none : PyValue
  | bool : Bool → PyValue
  | num : String → PyValue
  | str : String → PyValue
  | dict : List (String × PyValue) → PyValue

/-- The Python type name of a value, used in AttributeError messages. -/
def pyTypeName : PyValue → String
  | PyValue.none => "NoneType"
  | PyValue.bool _ => "bool"
  | PyValue.num _ => "float"
  | PyValue.str _ => "str"
  | PyValue.dict _ => "dict"

/-- Python `v.get(k, d)`: on a dict, return the value bound to `k` or the
default `d` when the key is missing; on any non-dict value (in particular
`None`) raise AttributeError, modelled as `Except.error`. -/
def attrGetD (v : PyValue) (k : String) (d : PyValue) : Except String PyValue :=
  match v with
  | PyValue.dict fs => Except.ok ((fs.lookup k).getD d)
  | other => Except.error (pyTypeName other ++ " object has no attribute get")

mutual

/-- Python `json.dumps` with default separators, restricted to the values
the script serializes. Literal braces are rendered with their escapes. -/
def jsonDumps : PyValue → String
  | PyValue.none => "null"
  | PyValue.bool true => "true"
  | PyValue.bool false => "false"
  | PyValue.num lit => lit
  | PyValue.str s => "\"" ++ s ++ "\""
  | PyValue.dict fs => "\x7b" ++ jsonDumpsFields fs ++ "\x7d"

/-- Renders the comma-separated field list of a JSON object. -/
def jsonDumpsFields : List (String × PyValue) → String
  | [] => ""
  | [(k, v)] => "\"" ++ k ++ "\": " ++ jsonDumps v
  | (k, v) :: rest => "\"" ++ k ++ "\": " ++ jsonDumps v ++ ", " ++ jsonDumpsFields rest

end

/-- The configuration surface of the app (module `settings`): broker
endpoint, client id, QoS, and the three topic names. -/
structure Settings where
  GPS_TOPIC : String
  MODEM_TEMP_TOPIC : String
  WAN_CONNECTION_STATE_TOPIC : String
  MQTT_SERVER : String
  MQTT_PORT : Nat
  MQTT_CLIENT_ID : String
  MQTT_QOS : Nat
deriving DecidableEq

/-- paho `mqtt.connack_string`: the human-readable meaning of a CONNACK
result code (`rc = 0` is success). -/
def connack_string (rc : Nat) : String :=
  match rc with
  | 0 => "Connection Accepted."
  | 1 => "Connection Refused: unacceptable protocol version."
  | 2 => "Connection Refused: identifier rejected."
  | 3 => "Connection Refused: broker unavailable."
  | 4 => "Connection Refused: bad user name or password."
  | 5 => "Connection Refused: not authorised."
  | _ => "Connection Refused: unknown reason."

/-- Observable actions of the `on_connect` callback. -/
inductive ConnAction where
  | logDebug : String → ConnAction
  | subscribe : List (String × Nat) → ConnAction
  | logError : String → ConnAction
deriving DecidableEq

/-- The body of the try block in `on_connect`: `client.subscribe(topics)`.
The underlying client call may raise (`subExn = some ex`); when it raises,
no subscribe request goes out. -/
def onConnectTryBody (st : Settings) (subExn : Option String) :
    Except String (List ConnAction) :=
  match subExn with
  | Option.none =>
      Except.ok [ConnAction.subscribe
        [(st.GPS_TOPIC, st.MQTT_QOS),
         (st.MODEM_TEMP_TOPIC, st.MQTT_QOS),
         (st.WAN_CONNECTION_STATE_TOPIC, st.MQTT_QOS)]]
  | Option.some ex => Except.error ex

/-- `on_connect(client, userdata, flags, rc)`: logs the CONNACK result,
then subscribes to the three topics inside a try/except that logs and
swallows any exception from the subscribe call. Note the result code `rc`
is only logged, never branched on. -/
def on_connect (st : Settings) (subExn : Option String) (rc : Nat) : List ConnAction :=
  ConnAction.logDebug ("MQTT Client connection results: " ++ connack_string rc) ::
    (match onConnectTryBody st subExn with
     | Except.ok acts => acts
     | Except.error ex => [ConnAction.logError ("Client Subscribe exception. ex=" ++ ex)])

/-- Is this action a subscribe request? -/
def isSubscribeAct : ConnAction → Bool
  | ConnAction.subscribe _ => true
  | _ => false

/-- Observable effects of one iteration of the loop of `publish_thread`:
a `publish.single` call (topic, payload, qos, hostname, port), a
`publish.multiple` call (list of (topic, payload, qos, retain) messages,
hostname, port), a `time.sleep`, or an error log line. -/
inductive Event where
  | publishSingle : String → String → Nat → String → Nat → Event
  | publishMultiple : List (String × PyValue × Nat × Bool) → String → Nat → Event
  | sleep : Nat → Event
  | logError : String → Event

/-- The environment one publisher cycle runs in: the device data source
(`ds key` is the value returned by `cs.CSClient().get(key)`), and the
exceptions, if any, raised by the two network publish calls. -/
structure CycleEnv where
  ds : String → PyValue
  singleExn : Option String
  multipleExn : Option String

/-- `cs.CSClient().get(settings.MODEM_TEMP_TOPIC).get("data", "")`:
the modem-temperature read, whose missing-key default is the empty
string. -/
def modemTempRead (st : Settings) (ds : String → PyValue) : Except String PyValue :=
  attrGetD (ds st.MODEM_TEMP_TOPIC) "data" (PyValue.str "")

/-- `cs.CSClient().get(settings.WAN_CONNECTION_STATE_TOPIC).get("data")`:
the WAN-connection-state read, whose missing-key default is `None`. -/
def wanStateRead (st : Settings) (ds : String → PyValue) : Except String PyValue :=
  attrGetD (ds st.WAN_CONNECTION_STATE_TOPIC) "data" PyValue.none

/-- The body of the try block of one iteration of the loop of `publish_thread`,
line by line. Returns the events emitted before the iteration finished or
raised, together with the raised exception if any. The `time.sleep(10)`
is the last statement inside the try block, so it is only reached when
every earlier step succeeded. -/
def cycleBody (st : Settings) (env : CycleEnv) : List Event × Option String :=
  match attrGetD (env.ds st.GPS_TOPIC) "data" PyValue.none with
  | Except.error e => ([], Option.some e)
  | Except.ok gps_lastpos =>
    match attrGetD gps_lastpos "longitude" PyValue.none with
    | Except.error e => ([], Option.some e)
    | Except.ok lon =>
      match attrGetD gps_lastpos "latitude" PyValue.none with
      | Except.error e => ([], Option.some e)
      | Except.ok lat =>
        let gps_pos := PyValue.dict [("logitude", lon), ("latitude", lat)]
        let e1 := Event.publishSingle st.GPS_TOPIC (jsonDumps gps_pos)
          st.MQTT_QOS st.MQTT_SERVER st.MQTT_PORT
        match env.singleExn with
        | Option.some e => ([], Option.some e)
        | Option.none =>
          match modemTempRead st env.ds with
          | Except.error e => ([e1], Option.some e)
          | Except.ok modem_temp =>
            match wanStateRead st env.ds with
            | Except.error e => ([e1], Option.some e)
            | Except.ok wan_connection_state =>
              let msgs := [(st.MODEM_TEMP_TOPIC, modem_temp, st.MQTT_QOS, false),
                           (st.WAN_CONNECTION_STATE_TOPIC, wan_connection_state,
                             st.MQTT_QOS, false)]
              let e2 := Event.publishMultiple msgs st.MQTT_SERVER st.MQTT_PORT
              match env.multipleExn with
              | Option.some e => ([e1], Option.some e)
              | Option.none => ([e1, e2, Event.sleep 10], Option.none)

/-- One full iteration of the `while True` loop: the try body plus the
except clause, which logs the exception and lets the loop continue. -/
def cycleIteration (st : Settings) (env : CycleEnv) : List Event :=
  match cycleBody st env with
  | (evs, Option.none) => evs
  | (evs, Option.some e) => evs ++ [Event.logError ("Exception in send_gps(). ex: " ++ e)]

/-- The event trace of the first `n` iterations of the loop of
`publish_thread`, where iteration `i` runs in environment `envs i`. -/
def publishTrace (st : Settings) (envs : Nat → CycleEnv) : Nat → List Event
  | 0 => []
  | Nat.succ n => cycleIteration st (envs 0) ++ publishTrace st (fun i => envs (i + 1)) n

/-- Concrete settings mirroring the reference configuration. -/
def demoSettings : Settings where
  GPS_TOPIC := "paho/test/single/gps"
  MODEM_TEMP_TOPIC := "paho/test/modem_temp"
  WAN_CONNECTION_STATE_TOPIC := "paho/test/wan_state"
  MQTT_SERVER := "test.mosquitto.org"
  MQTT_PORT := 1883
  MQTT_CLIENT_ID := "mqtt_app"
  MQTT_QOS := 0

/-- A healthy data source: GPS fix present, modem temperature and WAN
state present. -/
def demoDS : String → PyValue := fun k =>
  if k = "paho/test/single/gps" then
    PyValue.dict [("data", PyValue.dict
      [("longitude", PyValue.num "-97.1"), ("latitude", PyValue.num "32.7")])]
  else if k = "paho/test/modem_temp" then
    PyValue.dict [("data", PyValue.num "42")]
  else if k = "paho/test/wan_state" then
    PyValue.dict [("data", PyValue.str "connected")]
  else PyValue.none

/-- A healthy cycle environment: good data source, no network failures. -/
def envOk : CycleEnv where
  ds := demoDS
  singleExn := Option.none
  multipleExn := Option.none

/-- An environment where the data source has no entry for the GPS key, so
`cs.CSClient().get(GPS_TOPIC)` returns `None` and `.get("data")` raises. -/
def envGpsAbsent : CycleEnv where
  ds := fun _ => PyValue.none
  singleExn := Option.none
  multipleExn := Option.none

/-- If the try body of a cycle finished without raising, the iteration
trace is exactly the events of the body. -/
theorem cycleIteration_of_ok (st : Settings) (env : CycleEnv) (evs : List Event)
    (h : cycleBody st env = (evs, Option.none)) : cycleIteration st env = evs := by
  unfold cycleIteration
  rw [h]

/-- If the try body of a cycle raised, the iteration trace is the events
emitted before the raise followed by the error log line of the except
clause. -/
theorem cycleIteration_of_exn (st : Settings) (env : CycleEnv) (evs : List Event) (e : String)
    (h : cycleBody st env = (evs, Option.some e)) :
    cycleIteration st env = evs ++ [Event.logError ("Exception in send_gps(). ex: " ++ e)] := by
  unfold cycleIteration
  rw [h]

/-- Case analysis on one cycle of the publisher: either it raised before
the GPS publish went out, or it raised after the GPS publish but before
the batch publish went out, or every step succeeded and the trace is the
GPS single publish, the two-message batch publish and the 10-second
sleep, in that order. -/
theorem cycleBody_shape (st : Settings) (env : CycleEnv) :
    (∃ e, cycleBody st env = ([], Option.some e)) ∨
    (∃ pl e, cycleBody st env =
      ([Event.publishSingle st.GPS_TOPIC pl st.MQTT_QOS st.MQTT_SERVER st.MQTT_PORT],
        Option.some e)) ∨
    (∃ pl mt wan, cycleBody st env =
      ([Event.publishSingle st.GPS_TOPIC pl st.MQTT_QOS st.MQTT_SERVER st.MQTT_PORT,
        Event.publishMultiple
          [(st.MODEM_TEMP_TOPIC, mt, st.MQTT_QOS, false),
           (st.WAN_CONNECTION_STATE_TOPIC, wan, st.MQTT_QOS, false)]
          st.MQTT_SERVER st.MQTT_PORT,
        Event.sleep 10], Option.none)) := by
  unfold cycleBody
  dsimp only
  repeat' split
  all_goals first
  | exact Or.inl ⟨_, rfl⟩
  | exact Or.inr (Or.inl ⟨_, _, rfl⟩)
  | exact Or.inr (Or.inr ⟨_, _, _, rfl⟩)

/-- Any event emitted by the try body of a cycle is in the full iteration
trace, whether or not the cycle raised. -/
theorem mem_cycleIteration (st : Settings) (env : CycleEnv) (ev : Event)
    (h : ev ∈ (cycleBody st env).fst) : ev ∈ cycleIteration st env := by
  rcases hb : cycleBody st env with ⟨evs, exn⟩
  rw [hb] at h
  cases exn with
  | none => rw [cycleIteration_of_ok st env evs hb]; exact h
  | some e =>
      rw [cycleIteration_of_exn st env evs e hb]
      exact List.mem_append_left _ h

/-- Claim C1: for every GPS reading with longitude and latitude fields
returned by the device data source, the payload published to the GPS
topic in that cycle is the JSON serialization of a record whose first key
is the misspelled "logitude", bound to the longitude value, and whose
second key is "latitude", bound to the latitude value. -/
theorem C1_gps_payload_misspelled_key (st : Settings) (env : CycleEnv)
    (os fs : List (String × PyValue)) (lonV latV : PyValue)
    (hds : env.ds st.GPS_TOPIC = PyValue.dict os)
    (hdata : os.lookup "data" = Option.some (PyValue.dict fs))
    (hlon : fs.lookup "longitude" = Option.some lonV)
    (hlat : fs.lookup "latitude" = Option.some latV)
    (hnet : env.singleExn = Option.none) :
    Event.publishSingle st.GPS_TOPIC
      (jsonDumps (PyValue.dict [("logitude", lonV), ("latitude", latV)]))
      st.MQTT_QOS st.MQTT_SERVER st.MQTT_PORT ∈ cycleIteration st env := by
  apply mem_cycleIteration
  unfold cycleBody
  rw [hds, hnet]
  simp only [attrGetD, hdata, hlon, hlat, Option.getD_some]
  split
  · exact List.mem_singleton.mpr rfl
  · split
    · exact List.mem_cons_self _ _
    · split
      · exact List.mem_cons_self _ _
      · exact List.mem_cons_self _ _

/-- Witness for C1 at a concrete healthy environment. -/
theorem C1_witness :
    Event.publishSingle "paho/test/single/gps"
      (jsonDumps (PyValue.dict [("logitude", PyValue.num "-97.1"),
        ("latitude", PyValue.num "32.7")]))
      0 "test.mosquitto.org" 1883 ∈ cycleIteration demoSettings envOk :=
  C1_gps_payload_misspelled_key demoSettings envOk
    [("data", PyValue.dict
      [("longitude", PyValue.num "-97.1"), ("latitude", PyValue.num "32.7")])]
    [("longitude", PyValue.num "-97.1"), ("latitude", PyValue.num "32.7")]
    (PyValue.num "-97.1") (PyValue.num "32.7") rfl rfl rfl rfl rfl

/-- Claim C2 counterexample: in the environment where the data source has
no GPS entry, the cycle raises, and — contrary to the claim — the
10-second sleep is skipped: `time.sleep(10)` sits at the end of the try
block, so the except clause jumps past it and the next iteration begins
without any sleep. -/
theorem C2_counterexample :
    (cycleBody demoSettings envGpsAbsent).snd =
      Option.some "NoneType object has no attribute get" ∧
    Event.sleep 10 ∉ cycleIteration demoSettings envGpsAbsent := by
  constructor
  · rfl
  · intro hmem
    rw [cycleIteration_of_exn demoSettings envGpsAbsent []
      "NoneType object has no attribute get" rfl] at hmem
    simp at hmem

/-- Claim C2 (amended): in every iteration whose try body raises no
exception, the fixed 10-second sleep is the last event before the next
iteration begins; but in an iteration whose try body raises, the sleep is
skipped entirely, so the next iteration can begin in less than 10
seconds. -/
theorem C2_sleep_only_on_success (st : Settings) (env : CycleEnv) :
    ((cycleBody st env).snd = Option.none →
      ∃ l, cycleIteration st env = l ++ [Event.sleep 10]) ∧
    (∀ e, (cycleBody st env).snd = Option.some e →
      Event.sleep 10 ∉ cycleIteration st env) := by
  rcases cycleBody_shape st env with ⟨e, hb⟩ | ⟨pl, e, hb⟩ | ⟨pl, mt, wan, hb⟩
  · constructor
    · intro hn
      rw [hb] at hn
      simp at hn
    · intro e2 _ hmem
      rw [cycleIteration_of_exn st env [] e hb] at hmem
      simp at hmem
  · constructor
    · intro hn
      rw [hb] at hn
      simp at hn
    · intro e2 _ hmem
      rw [cycleIteration_of_exn st env _ e hb] at hmem
      simp at hmem
  · constructor
    · intro _
      refine ⟨[Event.publishSingle st.GPS_TOPIC pl st.MQTT_QOS st.MQTT_SERVER st.MQTT_PORT,
        Event.publishMultiple
          [(st.MODEM_TEMP_TOPIC, mt, st.MQTT_QOS, false),
           (st.WAN_CONNECTION_STATE_TOPIC, wan, st.MQTT_QOS, false)]
          st.MQTT_SERVER st.MQTT_PORT], ?_⟩
      rw [cycleIteration_of_ok st env _ hb]
      rfl
    · intro e2 he2
      rw [hb] at he2
      simp at he2

/-- Witness for the amended C2: a healthy cycle ends in the sleep, and
the failing cycle of the counterexample environment has no sleep. -/
theorem C2_witness :
    (∃ l, cycleIteration demoSettings envOk = l ++ [Event.sleep 10]) ∧
    Event.sleep 10 ∉ cycleIteration demoSettings envGpsAbsent :=
  ⟨(C2_sleep_only_on_success demoSettings envOk).1 rfl,
   (C2_sleep_only_on_success demoSettings envGpsAbsent).2
     "NoneType object has no attribute get" rfl⟩

/-- Claim C3: any exception raised inside the try body of a publisher
cycle is caught by the except clause, which appends an error log line and
returns the iteration trace normally, and the loop then runs the next
iteration: the trace of `n + 1` iterations is this iteration followed by
the trace of the remaining `n`. -/
theorem C3_exception_caught_loop_continues (st : Settings) (env : CycleEnv)
    (e : String) (envs : Nat → CycleEnv) (n : Nat)
    (hraise : (cycleBody st env).snd = Option.some e)
    (h0 : envs 0 = env) :
    cycleIteration st env =
      (cycleBody st env).fst ++ [Event.logError ("Exception in send_gps(). ex: " ++ e)] ∧
    publishTrace st envs (n + 1) =
      cycleIteration st env ++ publishTrace st (fun i => envs (i + 1)) n := by
  constructor
  · rcases hb : cycleBody st env with ⟨evs, exn⟩
    rw [hb] at hraise
    simp only at hraise
    subst hraise
    rw [cycleIteration_of_exn st env evs e hb]
  · rw [publishTrace, h0]

/-- Witness for C3 at the environment whose data source lacks the GPS
entry: the AttributeError raised by `.get("data")` on `None` is caught,
logged, and the loop continues. -/
theorem C3_witness :
    cycleIteration demoSettings envGpsAbsent =
      (cycleBody demoSettings envGpsAbsent).fst ++
        [Event.logError
          ("Exception in send_gps(). ex: " ++ "NoneType object has no attribute get")] ∧
    publishTrace demoSettings (fun _ => envGpsAbsent) 1 =
      cycleIteration demoSettings envGpsAbsent ++
        publishTrace demoSettings (fun _ => envGpsAbsent) 0 :=
  C3_exception_caught_loop_continues demoSettings envGpsAbsent
    "NoneType object has no attribute get" (fun _ => envGpsAbsent) 0 rfl rfl

/-- Claim C4: on a successful connect event (result code 0) in which the
subscribe call completes, `on_connect` issues exactly one subscribe
request, and it covers exactly the three configured topics, each at the
configured QoS. -/
theorem C4_one_subscribe_three_topics (st : Settings) (rc : Nat) (subExn : Option String)
    (hrc : rc = 0) (hsub : subExn = Option.none) :
    (on_connect st subExn rc).filter isSubscribeAct =
      [ConnAction.subscribe
        [(st.GPS_TOPIC, st.MQTT_QOS),
         (st.MODEM_TEMP_TOPIC, st.MQTT_QOS),
         (st.WAN_CONNECTION_STATE_TOPIC, st.MQTT_QOS)]] := by
  subst hrc hsub
  rfl

/-- Witness for C4 at the concrete settings and result code 0. -/
theorem C4_witness :
    (on_connect demoSettings Option.none 0).filter isSubscribeAct =
      [ConnAction.subscribe
        [("paho/test/single/gps", 0),
         ("paho/test/modem_temp", 0),
         ("paho/test/wan_state", 0)]] :=
  C4_one_subscribe_three_topics demoSettings 0 Option.none rfl rfl

/-- Claim C5 counterexample: on a failed connection attempt (result code
1), `on_connect` does issue a subscribe request — the handler never
inspects the result code, so the claim that it only logs on failure is
false. -/
theorem C5_counterexample :
    ConnAction.subscribe
      [("paho/test/single/gps", 0),
       ("paho/test/modem_temp", 0),
       ("paho/test/wan_state", 0)] ∈ on_connect demoSettings Option.none 1 :=
  List.Mem.tail _ (List.Mem.head _)

/-- Claim C5 (amended): on a failed connection attempt the handler logs
the result code and still issues the same subscribe request it issues on
success; it takes no other action, and never branches on the result
code. -/
theorem C5_subscribes_even_on_failure (st : Settings) (rc : Nat) (hne : rc ≠ 0) :
    on_connect st Option.none rc =
      [ConnAction.logDebug ("MQTT Client connection results: " ++ connack_string rc),
       ConnAction.subscribe
         [(st.GPS_TOPIC, st.MQTT_QOS),
          (st.MODEM_TEMP_TOPIC, st.MQTT_QOS),
          (st.WAN_CONNECTION_STATE_TOPIC, st.MQTT_QOS)]] := by
  rfl

/-- Witness for the amended C5 at result code 1. -/
theorem C5_witness :
    on_connect demoSettings Option.none 1 =
      [ConnAction.logDebug
        ("MQTT Client connection results: " ++ connack_string 1),
       ConnAction.subscribe
         [("paho/test/single/gps", 0),
          ("paho/test/modem_temp", 0),
          ("paho/test/wan_state", 0)]] :=
  C5_subscribes_even_on_failure demoSettings 1 (by decide)

/-- Claim C6: whenever a cycle performs a batch publish, that one
`publish.multiple` call carries exactly the two messages — modem
temperature then WAN connection state, each at the configured QoS with
the retained flag false — to the configured broker, and the cycle trace
contains exactly that one batch call (never two separate ones). -/
theorem C6_batch_two_messages_not_retained (st : Settings) (env : CycleEnv)
    (msgs : List (String × PyValue × Nat × Bool)) (hs : String) (pt : Nat)
    (h : Event.publishMultiple msgs hs pt ∈ cycleIteration st env) :
    ∃ pl mt wan,
      msgs = [(st.MODEM_TEMP_TOPIC, mt, st.MQTT_QOS, false),
              (st.WAN_CONNECTION_STATE_TOPIC, wan, st.MQTT_QOS, false)] ∧
      hs = st.MQTT_SERVER ∧ pt = st.MQTT_PORT ∧
      cycleIteration st env =
        [Event.publishSingle st.GPS_TOPIC pl st.MQTT_QOS st.MQTT_SERVER st.MQTT_PORT,
         Event.publishMultiple msgs hs pt,
         Event.sleep 10] := by
  rcases cycleBody_shape st env with ⟨e, hb⟩ | ⟨pl, e, hb⟩ | ⟨pl, mt, wan, hb⟩
  · rw [cycleIteration_of_exn st env [] e hb] at h
    simp at h
  · rw [cycleIteration_of_exn st env _ e hb] at h
    simp at h
  · rw [cycleIteration_of_ok st env _ hb] at h
    simp only [List.mem_cons, List.not_mem_nil, or_false] at h
    rcases h with h | h | h
    · exact absurd h (by simp)
    · rw [Event.publishMultiple.injEq] at h
      obtain ⟨h1, h2, h3⟩ := h
      subst h1 h2 h3
      exact ⟨pl, mt, wan, rfl, rfl, rfl, cycleIteration_of_ok st env _ hb⟩
    · exact absurd h (by simp)

/-- Witness for C6 at the healthy environment. -/
theorem C6_witness :
    ∃ pl mt wan,
      [("paho/test/modem_temp", PyValue.num "42", 0, false),
       ("paho/test/wan_state", PyValue.str "connected", 0, false)] =
        [("paho/test/modem_temp", mt, 0, false), ("paho/test/wan_state", wan, 0, false)] ∧
      "test.mosquitto.org" = "test.mosquitto.org" ∧ (1883 : Nat) = 1883 ∧
      cycleIteration demoSettings envOk =
        [Event.publishSingle "paho/test/single/gps" pl 0 "test.mosquitto.org" 1883,
         Event.publishMultiple
           [("paho/test/modem_temp", PyValue.num "42", 0, false),
            ("paho/test/wan_state", PyValue.str "connected", 0, false)]
           "test.mosquitto.org" 1883,
         Event.sleep 10] :=
  C6_batch_two_messages_not_retained demoSettings envOk
    [("paho/test/modem_temp", PyValue.num "42", 0, false),
     ("paho/test/wan_state", PyValue.str "connected", 0, false)]
    "test.mosquitto.org" 1883 (List.Mem.tail _ (List.Mem.head _))

/-- Claim C7: the modem-temperature read passes an empty-string default to
`.get("data", "")` while the WAN-connection-state read passes no default
to `.get("data")`, so when the `data` key is absent the former yields the
empty string and the latter yields `None` — the two reads handle a
missing value asymmetrically. -/
theorem C7_asymmetric_missing_data_defaults (st : Settings) (ds : String → PyValue)
    (ms ws : List (String × PyValue))
    (hm : ds st.MODEM_TEMP_TOPIC = PyValue.dict ms)
    (hmd : ms.lookup "data" = Option.none)
    (hw : ds st.WAN_CONNECTION_STATE_TOPIC = PyValue.dict ws)
    (hwd : ws.lookup "data" = Option.none) :
    modemTempRead st ds = Except.ok (PyValue.str "") ∧
    wanStateRead st ds = Except.ok PyValue.none := by
  unfold modemTempRead wanStateRead
  rw [hm, hw]
  simp [attrGetD, hmd, hwd]

/-- A data source every key of which maps to a dict with no `data`
field. -/
def dsNoData : String → PyValue := fun _ => PyValue.dict []

/-- Witness for C7 on a data source whose entries lack the `data` key. -/
theorem C7_witness :
    modemTempRead demoSettings dsNoData = Except.ok (PyValue.str "") ∧
    wanStateRead demoSettings dsNoData = Except.ok PyValue.none :=
  C7_asymmetric_missing_data_defaults demoSettings dsNoData [] [] rfl rfl rfl rfl

/-- Claim C8: when the subscribe call inside `on_connect` raises, the
exception propagates out of the try body as an error, the except clause
catches it and logs it, the handler returns its action list normally, and
no subscribe request is issued in that connect event. -/
theorem C8_subscribe_exception_swallowed (st : Settings) (ex : String) (rc : Nat) :
    onConnectTryBody st (Option.some ex) = Except.error ex ∧
    on_connect st (Option.some ex) rc =
      [ConnAction.logDebug ("MQTT Client connection results: " ++ connack_string rc),
       ConnAction.logError ("Client Subscribe exception. ex=" ++ ex)] ∧
    ∀ tps, ConnAction.subscribe tps ∉ on_connect st (Option.some ex) rc := by
  refine ⟨rfl, rfl, ?_⟩
  intro tps hmem
  simp [on_connect, onConnectTryBody] at hmem

/-- Witness for C8 at concrete settings, a concrete exception text and
result code 0. -/
theorem C8_witness :
    onConnectTryBody demoSettings (Option.some "bad topic list") =
      Except.error "bad topic list" ∧
    on_connect demoSettings (Option.some "bad topic list") 0 =
      [ConnAction.logDebug ("MQTT Client connection results: " ++ connack_string 0),
       ConnAction.logError ("Client Subscribe exception. ex=" ++ "bad topic list")] ∧
    ∀ tps, ConnAction.subscribe tps ∉
      on_connect demoSettings (Option.some "bad topic list") 0 :=
  C8_subscribe_exception_swallowed demoSettings "bad topic list" 0

/-- Claim C9: a cycle performs the batch publish only if every earlier
step — the GPS read, the GPS single-shot publish, and the two further
reads — completed without raising: whenever the batch event is in the
trace, the cycle raised no exception and its first event is the GPS
single publish, strictly before the batch. -/
theorem C9_batch_only_after_gps_publish (st : Settings) (env : CycleEnv)
    (msgs : List (String × PyValue × Nat × Bool)) (hs : String) (pt : Nat)
    (h : Event.publishMultiple msgs hs pt ∈ cycleIteration st env) :
    (cycleBody st env).snd = Option.none ∧
    ∃ pl, cycleIteration st env =
      Event.publishSingle st.GPS_TOPIC pl st.MQTT_QOS st.MQTT_SERVER st.MQTT_PORT ::
        Event.publishMultiple msgs hs pt :: [Event.sleep 10] := by
  rcases cycleBody_shape st env with ⟨e, hb⟩ | ⟨pl, e, hb⟩ | ⟨pl, mt, wan, hb⟩
  · rw [cycleIteration_of_exn st env [] e hb] at h
    simp at h
  · rw [cycleIteration_of_exn st env _ e hb] at h
    simp at h
  · rw [cycleIteration_of_ok st env _ hb] at h
    simp only [List.mem_cons, List.not_mem_nil, or_false] at h
    rcases h with h | h | h
    · exact absurd h (by simp)
    · rw [Event.publishMultiple.injEq] at h
      obtain ⟨h1, h2, h3⟩ := h
      subst h1 h2 h3
      refine ⟨by rw [hb], pl, cycleIteration_of_ok st env _ hb⟩
    · exact absurd h (by simp)

/-- Witness for C9 at the healthy environment. -/
theorem C9_witness :
    (cycleBody demoSettings envOk).snd = Option.none ∧
    ∃ pl, cycleIteration demoSettings envOk =
      Event.publishSingle "paho/test/single/gps" pl 0 "test.mosquitto.org" 1883 ::
        Event.publishMultiple
          [("paho/test/modem_temp", PyValue.num "42", 0, false),
           ("paho/test/wan_state", PyValue.str "connected", 0, false)]
          "test.mosquitto.org" 1883 :: [Event.sleep 10] :=
  C9_batch_only_after_gps_publish demoSettings envOk
    [("paho/test/modem_temp", PyValue.num "42", 0, false),
     ("paho/test/wan_state", PyValue.str "connected", 0, false)]
    "test.mosquitto.org" 1883 (List.Mem.tail _ (List.Mem.head _))

/-- Claim C10: when the GPS record is present but lacks the `longitude`
or the `latitude` key (or both), the payload construction does not raise —
Python `.get` returns `None` for whichever key is missing — and the
published GPS payload carries JSON `null` for each missing field, while a
field that is present keeps its value. -/
theorem C10_missing_gps_fields_publish_null (st : Settings) (env : CycleEnv)
    (os fs : List (String × PyValue))
    (hds : env.ds st.GPS_TOPIC = PyValue.dict os)
    (hdata : os.lookup "data" = Option.some (PyValue.dict fs))
    (hmiss : fs.lookup "longitude" = Option.none ∨ fs.lookup "latitude" = Option.none)
    (hnet : env.singleExn = Option.none) :
    jsonDumps PyValue.none = "null" ∧
    ∃ lonV latV,
      lonV = (fs.lookup "longitude").getD PyValue.none ∧
      latV = (fs.lookup "latitude").getD PyValue.none ∧
      (fs.lookup "longitude" = Option.none → lonV = PyValue.none) ∧
      (fs.lookup "latitude" = Option.none → latV = PyValue.none) ∧
      Event.publishSingle st.GPS_TOPIC
        (jsonDumps (PyValue.dict [("logitude", lonV), ("latitude", latV)]))
        st.MQTT_QOS st.MQTT_SERVER st.MQTT_PORT ∈ cycleIteration st env := by
  refine ⟨rfl, (fs.lookup "longitude").getD PyValue.none,
    (fs.lookup "latitude").getD PyValue.none, rfl, rfl,
    fun h => by rw [h]; rfl, fun h => by rw [h]; rfl, ?_⟩
  apply mem_cycleIteration
  unfold cycleBody
  rw [hds, hnet]
  simp only [attrGetD, hdata, Option.getD_some]
  split
  · exact List.mem_singleton.mpr rfl
  · split
    · exact List.mem_cons_self _ _
    · split
      · exact List.mem_cons_self _ _
      · exact List.mem_cons_self _ _

/-- An environment whose GPS record is present and holds a longitude but
no latitude key. -/
def envGpsLonOnly : CycleEnv where
  ds := fun k =>
    if k = "paho/test/single/gps" then
      PyValue.dict [("data", PyValue.dict [("longitude", PyValue.num "-97.1")])]
    else PyValue.none
  singleExn := Option.none
  multipleExn := Option.none

/-- Witness for C10 at the environment whose GPS record has a longitude
but no latitude: the longitude value is kept and the missing latitude
becomes `None`, published as JSON null. -/
theorem C10_witness :
    jsonDumps PyValue.none = "null" ∧
    ∃ lonV latV,
      lonV = (([("longitude", PyValue.num "-97.1")] :
        List (String × PyValue)).lookup "longitude").getD PyValue.none ∧
      latV = (([("longitude", PyValue.num "-97.1")] :
        List (String × PyValue)).lookup "latitude").getD PyValue.none ∧
      (([("longitude", PyValue.num "-97.1")] :
        List (String × PyValue)).lookup "longitude" = Option.none →
          lonV = PyValue.none) ∧
      (([("longitude", PyValue.num "-97.1")] :
        List (String × PyValue)).lookup "latitude" = Option.none →
          latV = PyValue.none) ∧
      Event.publishSingle "paho/test/single/gps"
        (jsonDumps (PyValue.dict [("logitude", lonV), ("latitude", latV)]))
        0 "test.mosquitto.org" 1883 ∈ cycleIteration demoSettings envGpsLonOnly :=
  C10_missing_gps_fields_publish_null demoSettings envGpsLonOnly
    [("data", PyValue.dict [("longitude", PyValue.num "-97.1")])]
    [("longitude", PyValue.num "-97.1")]
    rfl rfl (Or.inr rfl) rfl
